import Mathlib

/-!
Verification development for `pandas/tseries/converter.py` (time-series
matplotlib converter module): shallow embedding of the tick-location /
label-formatting engine and proofs about it.

Conventions of the embedding:
* Python floats are modelled as exact rationals (`ℚ`); the float literals
  appearing in the source (`1.15`, `2.5`, ...) are taken at their decimal
  value.
* Python `int(x)` is truncation toward zero (`pyInt`); `x % 1` on a float
  is the nonnegative fractional part (`pyMod1`); integer `//` and `%` are
  floor division (`Int.fdiv`) and nonnegative remainder (`Int.emod`).
* The numpy record array built by the finders is a `List Tick`; masked
  column assignments (`info['fmt'][mask] = v`) become the write
  combinators `wrB` / `wrS` / `wrAt`, applied in source order (the
  outermost write is the last one executed, so it wins, exactly like the
  sequential numpy writes).
* External collaborators that live outside `src/` (the period/calendar
  field accessors, the datetime parser, `Period.strftime`) are modelled
  as explicit function parameters, per the spec's "black-box services"
  contract (spec section 1 and section 6).
-/

namespace PandasConverter

/-- Python `int(x)` on a float: truncation toward zero. -/
def pyInt (q : ℚ) : ℤ := if 0 ≤ q then ⌊q⌋ else ⌈q⌉

/-- Python `x % 1` on a float: the nonnegative fractional part. -/
def pyMod1 (q : ℚ) : ℚ := q - ⌊q⌋

/-- One entry of the numpy record array
`dtype=[('val', int), ('maj', bool), ('min', bool), ('fmt', str)]`
that every finder returns. -/
structure Tick where
  val : ℤ
  maj : Bool
  min : Bool
  fmt : String
deriving DecidableEq, Repr

/-- Masked boolean column write: `col[mask] = b` over a previous column. -/
def wrB (m : ℕ → Bool) (b : Bool) (f : ℕ → Bool) : ℕ → Bool :=
  fun i => if m i then b else f i

/-- Masked string column write: `col[mask] = v` over a previous column. -/
def wrS (m : ℕ → Bool) (v : String) (f : ℕ → String) : ℕ → String :=
  fun i => if m i then v else f i

/-- Single-index string column write `col[j] = v` (no-op when the source
would have raised `IndexError` on an empty index array, which no executed
path does). -/
def wrAt (j : Option ℕ) (v : String) (f : ℕ → String) : ℕ → String :=
  fun i => if j = some i then v else f i

/-- `has_level_label(label_flags, vmin)` from the source.  `label_flags`
is the array of indices where a boundary occurs (the output of
`period_break(...).nonzero()`), so "`label_flags[0] == 0`" means the only
boundary index is position 0. -/
def has_level_label (label_flags : List ℕ) (vmin : ℚ) : Bool :=
  if label_flags.length = 0 ∨
      (label_flags.length = 1 ∧ label_flags.headD 0 = 0 ∧ pyMod1 vmin > 0)
  then false
  else true

/-- `first_label(label_flags)` from `_daily_finder` (closure over
`vmin_orig`).  Returns `none` where the source would raise `IndexError`
on an empty index array. -/
def first_label (vmin_orig : ℚ) (label_flags : List ℕ) : Option ℕ :=
  match label_flags with
  | [] => none
  | [a] => some a
  | a :: b :: _ => if a = 0 ∧ pyMod1 vmin_orig > 0 then some b else some a

/-- `_get_default_annual_spacing(nyears)`: the table-driven
`(min_spacing, maj_spacing)` lookup.  The callers pass either an integer
span or a float `span / periodsperyear`, so the argument is `ℚ`. -/
def get_default_annual_spacing (nyears : ℚ) : ℤ × ℤ :=
  if nyears < 11 then (1, 1)
  else if nyears < 20 then (1, 2)
  else if nyears < 50 then (1, 5)
  else if nyears < 100 then (5, 10)
  else if nyears < 200 then (5, 25)
  else if nyears < 600 then (10, 50)
  else
    let factor := ⌊nyears / 1000⌋ + 1
    (factor * 20, factor * 100)

/-! ## Granularity finders -/

/-- The frequency groups the sub-month/daily finder supports
(`FR_SEC`/`FR_MIN`/`FR_HR` are the sub-daily group `freq >= FR_HR`;
the rest are business-daily, daily, weekly and undefined). -/
inductive DailyFreq where
  | FR_SEC | FR_MIN | FR_HR | FR_BUS | FR_DAY | FR_WK | FR_UND
deriving DecidableEq, Repr

/-- `(periodsperday, periodsperyear, periodspermonth)` exactly as set up
at the top of `_daily_finder`; `periodsperday` keeps its initial `-1`
for the non-sub-daily groups, as in the source. -/
def dailyParams : DailyFreq → ℚ × ℤ × ℤ
  | .FR_SEC => (24 * 60 * 60, 365 * (24 * 60 * 60), 28 * (24 * 60 * 60))
  | .FR_MIN => (24 * 60, 365 * (24 * 60), 28 * (24 * 60))
  | .FR_HR => (24, 365 * 24, 28 * 24)
  | .FR_BUS => (-1, 261, 19)
  | .FR_DAY => (-1, 365, 28)
  | .FR_WK => (-1, 52, 3)
  | .FR_UND => (-1, 100, 10)

/-- `freq < FreqGroup.FR_HR` in `_daily_finder` Case 2: true for the
non-sub-daily groups. -/
def DailyFreq.belowHour : DailyFreq → Bool
  | .FR_SEC | .FR_MIN | .FR_HR => false
  | _ => true

/-- Field accessors of the external period/calendar service.  Modelled
from the spec: "given an ordinal + frequency, expose field accessors
(year, month, week, day, hour, minute, second)" — a `Calendar` is that
family of accessors for one fixed frequency (`pandas.tseries.period` is
not part of `src/`). -/
structure Calendar where
  year : ℤ → ℤ
  quarter : ℤ → ℤ
  month : ℤ → ℤ
  week : ℤ → ℤ
  day : ℤ → ℤ
  hour : ℤ → ℤ
  minute : ℤ → ℤ
  second : ℤ → ℤ

/-- `period_break(dates_, field)` as a boolean mask over positions:
position `i` (ordinal `v0 + i`) is a break when the field value differs
from the field value at ordinal `v0 + i - 1`. -/
def pbreak (f : ℤ → ℤ) (v0 : ℤ) : ℕ → Bool :=
  fun i => decide (f (v0 + i) ≠ f (v0 + i - 1))

/-- The `.nonzero()[0]` index list of a boolean mask. -/
def breaksList (m : ℕ → Bool) (spanN : ℕ) : List ℕ :=
  (List.range spanN).filter m

/-- Materialize the record array from its per-position columns. -/
def mkInfo (spanN : ℕ) (val : ℕ → ℤ)
    (F : (ℕ → Bool) × (ℕ → Bool) × (ℕ → String)) : List Tick :=
  (List.range spanN).map fun i => ⟨val i, F.1 i, F.2.1 i, F.2.2 i⟩

/-- The inclusive consecutive integer list `[a, a+1, ..., b]`. -/
def intRange (a b : ℤ) : List ℤ :=
  (List.range (b - a + 1).toNat).map fun (i : ℕ) => a + (i : ℤ)

/-- The `(maj, min, fmt)` columns of `_monthly_finder`. -/
def monthlyFields (vmin vmax : ℚ) : (ℕ → Bool) × (ℕ → Bool) × (ℕ → String) :=
  let periodsperyear : ℤ := 12
  let vmin_orig := vmin
  let v0 := pyInt vmin
  let v1 := pyInt vmax
  let span : ℤ := v1 - v0 + 1
  let spanN : ℕ := span.toNat
  let year_start : ℕ → Bool := fun i => decide ((v0 + i) % 12 = 0)
  let year_startL := breaksList year_start spanN
  let majZ : ℕ → Bool := fun _ => false
  let minZ : ℕ → Bool := fun _ => false
  let fmtZ : ℕ → String := fun _ => ""
  if (span : ℚ) ≤ (115 / 100 : ℚ) * (periodsperyear : ℚ) then
    let maj := wrB year_start true majZ
    let fmt1 := wrS year_start "%b\n%Y" (wrS (fun _ => true) "%b" fmtZ)
    let fmt2 :=
      if !(has_level_label year_startL vmin_orig) then
        wrAt (some (if 1 < spanN then 1 else 0)) "%b\n%Y" fmt1
      else fmt1
    (maj, fun _ => true, fmt2)
  else if (span : ℚ) ≤ (5 / 2 : ℚ) * (periodsperyear : ℚ) then
    let quarter_start : ℕ → Bool := fun i => decide ((v0 + i) % 3 = 0)
    let maj := wrB year_start true majZ
    -- the source's suspect `info['fmt'][quarter_start] = True` writes the
    -- bytes b'True' into the fmt column, then the two final writes land
    let fmt := wrS year_start "%b\n%Y"
      (wrS quarter_start "%b" (wrS quarter_start "True" fmtZ))
    (maj, fun _ => true, fmt)
  else if (span : ℚ) ≤ (4 : ℚ) * (periodsperyear : ℚ) then
    let maj := wrB year_start true majZ
    let jan_or_jul : ℕ → Bool :=
      fun i => decide ((v0 + i) % 12 = 0) || decide ((v0 + i) % 12 = 6)
    let fmt := wrS year_start "%b\n%Y" (wrS jan_or_jul "%b" fmtZ)
    (maj, fun _ => true, fmt)
  else if (span : ℚ) ≤ (11 : ℚ) * (periodsperyear : ℚ) then
    let quarter_start : ℕ → Bool := fun i => decide ((v0 + i) % 3 = 0)
    let maj := wrB year_start true majZ
    let mn := wrB quarter_start true minZ
    let fmt := wrS year_start "%Y" fmtZ
    (maj, mn, fmt)
  else
    let nyears : ℚ := (span : ℚ) / (periodsperyear : ℚ)
    let sp := get_default_annual_spacing nyears
    let years : ℕ → ℤ := fun i => (v0 + i).fdiv 12 + 1
    let major_idx : ℕ → Bool :=
      fun i => year_start i && decide (years i % sp.2 = 0)
    let minor_idx : ℕ → Bool :=
      fun i => year_start i && decide (years i % sp.1 = 0)
    (wrB major_idx true majZ, wrB minor_idx true minZ,
      wrS major_idx "%Y" fmtZ)

/-- `_monthly_finder(vmin, vmax, freq)` (the month-ordinal finder;
`freq` is unused by its body). -/
def monthly_finder (vmin vmax : ℚ) : List Tick :=
  mkInfo (pyInt vmax - pyInt vmin + 1).toNat (fun i => pyInt vmin + i)
    (monthlyFields vmin vmax)

/-- The `(maj, min, fmt)` columns of `_quarterly_finder`. -/
def quarterlyFields (vmin vmax : ℚ) : (ℕ → Bool) × (ℕ → Bool) × (ℕ → String) :=
  let periodsperyear : ℤ := 4
  let vmin_orig := vmin
  let v0 := pyInt vmin
  let v1 := pyInt vmax
  let span : ℤ := v1 - v0 + 1
  let spanN : ℕ := span.toNat
  let year_start : ℕ → Bool := fun i => decide ((v0 + i) % 4 = 0)
  let year_startL := breaksList year_start spanN
  let majZ : ℕ → Bool := fun _ => false
  let minZ : ℕ → Bool := fun _ => false
  let fmtZ : ℕ → String := fun _ => ""
  if (span : ℚ) ≤ (7 / 2 : ℚ) * (periodsperyear : ℚ) then
    let maj := wrB year_start true majZ
    let fmt1 := wrS year_start "Q%q\n%F" (wrS (fun _ => true) "Q%q" fmtZ)
    let fmt2 :=
      if !(has_level_label year_startL vmin_orig) then
        wrAt (some (if 1 < spanN then 1 else 0)) "Q%q\n%F" fmt1
      else fmt1
    (maj, fun _ => true, fmt2)
  else if (span : ℚ) ≤ (11 : ℚ) * (periodsperyear : ℚ) then
    (wrB year_start true majZ, fun _ => true, wrS year_start "%F" fmtZ)
  else
    let years : ℕ → ℤ := fun i => (v0 + i).fdiv 4 + 1
    let nyears : ℚ := (span : ℚ) / (periodsperyear : ℚ)
    let sp := get_default_annual_spacing nyears
    let major_idx : ℕ → Bool :=
      fun i => year_start i && decide (years i % sp.2 = 0)
    let minor_idx : ℕ → Bool :=
      fun i => year_start i && decide (years i % sp.1 = 0)
    (wrB major_idx true majZ, wrB minor_idx true minZ,
      wrS major_idx "%F" fmtZ)

/-- `_quarterly_finder(vmin, vmax, freq)`. -/
def quarterly_finder (vmin vmax : ℚ) : List Tick :=
  mkInfo (pyInt vmax - pyInt vmin + 1).toNat (fun i => pyInt vmin + i)
    (quarterlyFields vmin vmax)

/-- The `(maj, min, fmt)` columns of `_annual_finder`.  Note the source
first rebinds `vmax` to `int(vmax + 1)`. -/
def annualFields (vmin vmax : ℚ) : (ℕ → Bool) × (ℕ → Bool) × (ℕ → String) :=
  let v0 := pyInt vmin
  let v1 := pyInt (vmax + 1)
  let span : ℤ := v1 - v0 + 1
  let sp := get_default_annual_spacing (span : ℚ)
  let major_idx : ℕ → Bool := fun i => decide ((v0 + i) % sp.2 = 0)
  let minor_idx : ℕ → Bool := fun i => decide ((v0 + i) % sp.1 = 0)
  (wrB major_idx true (fun _ => false),
    wrB minor_idx true (fun _ => false),
    wrS major_idx "%Y" (fun _ => ""))

/-- `_annual_finder(vmin, vmax, freq)`. -/
def annual_finder (vmin vmax : ℚ) : List Tick :=
  mkInfo (pyInt (vmax + 1) - pyInt vmin + 1).toNat (fun i => pyInt vmin + i)
    (annualFields vmin vmax)

/-- `_second_finder(label_interval)` inside `_daily_finder` Case 1. -/
def secondFields (cal : Calendar) (v0 : ℤ) (day_start : ℕ → Bool)
    (label_interval : ℤ) (majI minI : ℕ → Bool) (fmtI : ℕ → String) :
    (ℕ → Bool) × (ℕ → Bool) × (ℕ → String) :=
  let minute_start := pbreak cal.minute v0
  let second_mask : ℕ → Bool := fun i =>
    pbreak cal.second v0 i && decide (cal.second (v0 + i) % label_interval = 0)
  let year_start := pbreak cal.year v0
  (wrB minute_start true majI,
    wrB second_mask true minI,
    wrS year_start "%H:%M:%S\n%d-%b\n%Y"
      (wrS day_start "%H:%M:%S\n%d-%b" (wrS second_mask "%H:%M:%S" fmtI)))

/-- `_minute_finder(label_interval)` inside `_daily_finder` Case 1. -/
def minuteFields (cal : Calendar) (v0 : ℤ) (day_start : ℕ → Bool)
    (label_interval : ℤ) (majI minI : ℕ → Bool) (fmtI : ℕ → String) :
    (ℕ → Bool) × (ℕ → Bool) × (ℕ → String) :=
  let hour_start := pbreak cal.hour v0
  let minute_mask : ℕ → Bool := fun i =>
    pbreak cal.minute v0 i && decide (cal.minute (v0 + i) % label_interval = 0)
  let year_start := pbreak cal.year v0
  (wrB hour_start true majI,
    wrB minute_mask true minI,
    wrS year_start "%H:%M\n%d-%b\n%Y"
      (wrS day_start "%H:%M\n%d-%b" (wrS minute_mask "%H:%M" fmtI)))

/-- `_hour_finder(label_interval, force_year_start)` inside
`_daily_finder` Case 1. -/
def hourFields (cal : Calendar) (v0 : ℤ) (vmin_orig : ℚ)
    (day_start : ℕ → Bool) (day_startL year_startL : List ℕ)
    (label_interval : ℤ) (force_year_start : Bool)
    (majI minI : ℕ → Bool) (fmtI : ℕ → String) :
    (ℕ → Bool) × (ℕ → Bool) × (ℕ → String) :=
  let hour_mask : ℕ → Bool := fun i =>
    pbreak cal.hour v0 i && decide (cal.hour (v0 + i) % label_interval = 0)
  let year_start := pbreak cal.year v0
  let fmt1 := wrS year_start "%H:%M\n%d-%b\n%Y"
    (wrS day_start "%H:%M\n%d-%b" (wrS hour_mask "%H:%M" fmtI))
  let fmt2 :=
    if force_year_start && !(has_level_label year_startL vmin_orig) then
      wrAt (first_label vmin_orig day_startL) "%H:%M\n%d-%b\n%Y" fmt1
    else fmt1
  (wrB day_start true majI, wrB hour_mask true minI, fmt2)

/-- The branch `_daily_finder` dispatches to: one of the three Case-1
sub-finder levels (with its `label_interval` and, for hours, the
`force_year_start` flag), the Case-1 day/month/year fallthrough, or one
of the five multi-month span bands. -/
inductive DailyBranch where
  | secondB (label_interval : ℤ)
  | minuteB (label_interval : ℤ)
  | hourB (label_interval : ℤ) (force_year_start : Bool)
  | dayB
  | caseQuarterSpan
  | caseYearSpan
  | case25Years
  | case4Years
  | case11Years
  | caseManyYears
deriving DecidableEq, Repr

/-- The span-threshold dispatch of `_daily_finder`, exactly in source
order (`periodsperday` is `-1` for the non-sub-daily groups, so all
Case-1 sub-daily thresholds are then negative and fall through to the
day/month/year scheme, as in the source). -/
def dailyBranch (periodsperday : ℚ) (periodsperyear periodspermonth : ℤ)
    (span : ℤ) : DailyBranch :=
  if (span : ℚ) ≤ (periodspermonth : ℚ) then
    -- Case 1. Less than a month
    if (span : ℚ) < periodsperday / 12000 then .secondB 1
    else if (span : ℚ) < periodsperday / 6000 then .secondB 2
    else if (span : ℚ) < periodsperday / 2400 then .secondB 5
    else if (span : ℚ) < periodsperday / 1200 then .secondB 10
    else if (span : ℚ) < periodsperday / 800 then .secondB 15
    else if (span : ℚ) < periodsperday / 400 then .secondB 30
    else if (span : ℚ) < periodsperday / 150 then .minuteB 1
    else if (span : ℚ) < periodsperday / 70 then .minuteB 2
    else if (span : ℚ) < periodsperday / 24 then .minuteB 5
    else if (span : ℚ) < periodsperday / 12 then .minuteB 15
    else if (span : ℚ) < periodsperday / 6 then .minuteB 30
    else if (span : ℚ) < periodsperday / (5 / 2 : ℚ) then .hourB 1 false
    else if (span : ℚ) < periodsperday / (3 / 2 : ℚ) then .hourB 2 false
    else if (span : ℚ) < periodsperday * (5 / 4 : ℚ) then .hourB 3 false
    else if (span : ℚ) < periodsperday * (5 / 2 : ℚ) then .hourB 6 true
    else if (span : ℚ) < periodsperday * 4 then .hourB 12 true
    else .dayB
  -- Case 2. Less than three months
  else if (span : ℚ) ≤ ((periodsperyear.fdiv 4 : ℤ) : ℚ) then .caseQuarterSpan
  -- Case 3. Less than 14 months
  else if (span : ℚ) ≤ (115 / 100 : ℚ) * (periodsperyear : ℚ) then .caseYearSpan
  -- Case 4. Less than 2.5 years
  else if (span : ℚ) ≤ (5 / 2 : ℚ) * (periodsperyear : ℚ) then .case25Years
  -- Case 4. Less than 4 years
  else if (span : ℚ) ≤ (4 : ℚ) * (periodsperyear : ℚ) then .case4Years
  -- Case 5. Less than 11 years
  else if (span : ℚ) ≤ (11 : ℚ) * (periodsperyear : ℚ) then .case11Years
  -- Case 6. More than 12 years
  else .caseManyYears

/-- The `(maj, min, fmt)` columns of `_daily_finder`, over the external
calendar accessors `cal` for the frequency `freq`: the branch selected
by `dailyBranch` determines the masked column writes. -/
def dailyFields (cal : Calendar) (freq : DailyFreq) (vmin vmax : ℚ) :
    (ℕ → Bool) × (ℕ → Bool) × (ℕ → String) :=
  let p := dailyParams freq
  let periodsperyear : ℤ := p.2.1
  let vmin_orig := vmin
  let v0 := pyInt vmin
  let v1 := pyInt vmax
  let span : ℤ := v1 - v0 + 1
  let spanN : ℕ := span.toNat
  let majInit : ℕ → Bool := fun i => decide (i = 0 ∨ i + 1 = spanN)
  let minInit : ℕ → Bool := fun _ => false
  let fmtInit : ℕ → String := fun _ => ""
  let day_start := pbreak cal.day v0
  let month_start := pbreak cal.month v0
  let year_start := pbreak cal.year v0
  let week_start := pbreak cal.week v0
  let day_startL := breaksList day_start spanN
  let month_startL := breaksList month_start spanN
  let year_startL := breaksList year_start spanN
  let week_startL := breaksList week_start spanN
  match dailyBranch p.1 p.2.1 p.2.2 span with
  | .secondB li => secondFields cal v0 day_start li majInit minInit fmtInit
  | .minuteB li => minuteFields cal v0 day_start li majInit minInit fmtInit
  | .hourB li fy =>
      hourFields cal v0 vmin_orig day_start day_startL year_startL li fy
        majInit minInit fmtInit
  | .dayB =>
      let maj := wrB month_start true majInit
      let mn := wrB day_start true minInit
      let fmt1 := wrS year_start "%d\n%b\n%Y"
        (wrS month_start "%d\n%b" (wrS day_start "%d" fmtInit))
      let fmt2 :=
        if !(has_level_label year_startL vmin_orig) then
          if !(has_level_label month_startL vmin_orig) then
            wrAt (first_label vmin_orig day_startL) "%d\n%b\n%Y" fmt1
          else
            wrAt (first_label vmin_orig month_startL) "%d\n%b\n%Y" fmt1
        else fmt1
      (maj, mn, fmt2)
  | .caseQuarterSpan =>
      let maj := wrB month_start true majInit
      let mn :=
        if freq.belowHour then (fun _ => true)
        else wrB day_start true minInit
      let fmt1 := wrS year_start "\n\n%b\n%Y"
        (wrS month_start "\n\n%b" (wrS week_start "%d" fmtInit))
      let fmt2 :=
        if !(has_level_label year_startL vmin_orig) then
          if !(has_level_label month_startL vmin_orig) then
            wrAt (first_label vmin_orig week_startL) "\n\n%b\n%Y" fmt1
          else
            wrAt (first_label vmin_orig month_startL) "\n\n%b\n%Y" fmt1
        else fmt1
      (maj, mn, fmt2)
  | .caseYearSpan =>
      let maj := wrB month_start true majInit
      let mn := wrB month_start false
        (wrB year_start false (wrB week_start true minInit))
      let fmt1 := wrS year_start "%b\n%Y" (wrS month_start "%b" fmtInit)
      let fmt2 :=
        if !(has_level_label year_startL vmin_orig) then
          wrAt (first_label vmin_orig month_startL) "%b\n%Y" fmt1
        else fmt1
      (maj, mn, fmt2)
  | .case25Years =>
      let quarter_start := pbreak cal.quarter v0
      let maj := wrB quarter_start true majInit
      let mn := wrB month_start true minInit
      let fmt := wrS year_start "%b\n%Y" (wrS quarter_start "%b" fmtInit)
      (maj, mn, fmt)
  | .case4Years =>
      let maj := wrB year_start true majInit
      let mn := wrB year_start false (wrB month_start true minInit)
      let jan_or_jul : ℕ → Bool := fun i =>
        month_start i &&
          (decide (cal.month (v0 + i) = 1) || decide (cal.month (v0 + i) = 7))
      let fmt := wrS year_start "%b\n%Y" (wrS jan_or_jul "%b" fmtInit)
      (maj, mn, fmt)
  | .case11Years =>
      let quarter_start := pbreak cal.quarter v0
      let maj := wrB year_start true majInit
      let mn := wrB year_start false (wrB quarter_start true minInit)
      let fmt := wrS year_start "%Y" fmtInit
      (maj, mn, fmt)
  | .caseManyYears =>
      let nyears : ℚ := (span : ℚ) / (periodsperyear : ℚ)
      let sp := get_default_annual_spacing nyears
      let major_idx : ℕ → Bool := fun i =>
        year_start i && decide (cal.year (v0 + i) % sp.2 = 0)
      let minor_idx : ℕ → Bool := fun i =>
        year_start i && decide (cal.year (v0 + i) % sp.1 = 0)
      (wrB major_idx true majInit, wrB minor_idx true minInit,
        wrS major_idx "%Y" fmtInit)

/-- `_daily_finder(vmin, vmax, freq)`: the `val` column holds the
consecutive period ordinals of
`PeriodIndex(start=Period(ordinal=int(vmin)), end=Period(ordinal=int(vmax)))`. -/
def daily_finder (cal : Calendar) (freq : DailyFreq) (vmin vmax : ℚ) :
    List Tick :=
  mkInfo (pyInt vmax - pyInt vmin + 1).toNat (fun i => pyInt vmin + i)
    (dailyFields cal freq vmin vmax)

/-- A concrete stand-in calendar (identity accessors) for witnesses. -/
def calTriv : Calendar :=
  ⟨fun k => k, fun k => k, fun k => k, fun k => k,
   fun k => k, fun k => k, fun k => k, fun k => k⟩

/-! ## Dynamic locator / formatter -/

/-- The per-axis shared cache (`plot_obj` fields): the cached finder
output `date_axis_info` and the last seen `view_interval`. -/
structure PlotState where
  date_axis_info : Option (List Tick)
  view_interval : Option (ℚ × ℚ)
deriving DecidableEq

/-- `np.compress(locator[min-or-maj], locator[val])`. -/
def compressLocs (isminor : Bool) (info : List Tick) : List ℤ :=
  (info.filter fun t => if isminor then t.min else t.maj).map Tick.val

/-- `TimeSeries_DateLocator._get_default_locs`: rebuild the cached
TickInfo if absent, then compress.  Also returns the updated cache and
how many times the finder ran (0 or 1), the observable of claim C6. -/
def get_default_locs (finder : ℚ → ℚ → List Tick) (isminor : Bool)
    (st : PlotState) (vmin vmax : ℚ) : List ℤ × PlotState × ℕ :=
  match st.date_axis_info with
  | none =>
      let info := finder vmin vmax
      (compressLocs isminor info, { st with date_axis_info := some info }, 1)
  | some info => (compressLocs isminor info, st, 0)

/-- `TimeSeries_DateLocator.__call__` in dynamic mode: invalidate the
cache when the axis view interval changed, store the new interval,
normalize an inverted range, then `_get_default_locs`. -/
def locator_call (finder : ℚ → ℚ → List Tick) (isminor : Bool)
    (st : PlotState) (vi : ℚ × ℚ) : List ℤ × PlotState × ℕ :=
  let st1 :=
    if some vi ≠ st.view_interval then
      { st with date_axis_info := none, view_interval := some vi }
    else { st with view_interval := some vi }
  let vmin := if vi.2 < vi.1 then vi.2 else vi.1
  let vmax := if vi.2 < vi.1 then vi.1 else vi.2
  get_default_locs finder isminor st1 vmin vmax

/-- Python `dict(pairs)` as an association list with unique keys: fold
left, replacing the stored value when the key is already present. -/
def dictFromPairs (pairs : List (ℤ × String)) : List (ℤ × String) :=
  pairs.foldl (fun d p =>
    if d.any fun q => q.1 == p.1 then
      d.map fun q => if q.1 == p.1 then p else q
    else d ++ [p]) []

/-- Lookup in the association-list dict. -/
def dictLookup (d : List (ℤ × String)) (x : ℤ) : Option String :=
  (d.find? fun q => q.1 == x).map Prod.snd

/-- `d.pop(x, '')`: the popped value (default `''`) and the remaining
dict; on a unique-key association list dropping every pair with key `x`
removes exactly the entry for `x`. -/
def dictPop (d : List (ℤ × String)) (x : ℤ) : String × List (ℤ × String) :=
  ((dictLookup d x).getD "", d.filter fun q => q.1 != x)

/-- `TimeSeries_DateFormatter` state: its `formatdict` (absent until the
first `set_locs`) plus the shared per-axis cache. -/
structure FmtState where
  formatdict : Option (List (ℤ × String))
  plot : PlotState
deriving DecidableEq

/-- `TimeSeries_DateFormatter._set_default_format`: rebuild the cached
TickInfo if absent, keep the minor-only (`min and not maj`) or major
entries, and rebuild `formatdict` from their `(val, fmt)` pairs. -/
def set_default_format (finder : ℚ → ℚ → List Tick) (isminor : Bool)
    (pst : PlotState) (vmin vmax : ℚ) : List (ℤ × String) × PlotState :=
  let r :=
    match pst.date_axis_info with
    | none =>
        let info := finder vmin vmax
        (info, { pst with date_axis_info := some info })
    | some info => (info, pst)
  let entries :=
    if isminor then r.1.filter fun t => t.min && !t.maj
    else r.1.filter fun t => t.maj
  (dictFromPairs (entries.map fun t => (t.val, t.fmt)), r.2)

/-- `TimeSeries_DateFormatter.set_locs` (the `locs` argument is stored
by the source but otherwise unused): the view-interval cache dance,
range normalization, then `_set_default_format`. -/
def formatter_set_locs (finder : ℚ → ℚ → List Tick) (isminor : Bool)
    (st : FmtState) (vi : ℚ × ℚ) : FmtState :=
  let pst :=
    if some vi ≠ st.plot.view_interval then
      { st.plot with date_axis_info := none, view_interval := some vi }
    else { st.plot with view_interval := some vi }
  let vmin := if vi.2 < vi.1 then vi.2 else vi.1
  let vmax := if vi.2 < vi.1 then vi.1 else vi.2
  let r := set_default_format finder isminor pst vmin vmax
  { formatdict := some r.1, plot := r.2 }

/-- `TimeSeries_DateFormatter.__call__(x, pos)`: before any `set_locs`
(`formatdict is None`) return `''`; otherwise pop the entry for `x`
(default `''`) and render it through the external
`Period(ordinal=int(x), freq=...).strftime` service, passed in as
`strftime`. -/
def formatter_call (strftime : ℤ → String → String) (st : FmtState)
    (x : ℤ) : String × FmtState :=
  match st.formatdict with
  | none => ("", st)
  | some d =>
      let r := dictPop d x
      (strftime x r.1, { st with formatdict := some r.2 })

/-! ## Calendar-datetime unit adapter -/

/-- Values the calendar-datetime adapter can receive: a
datetime/date, a bare clock time, an already-numeric value, a string, an
element-wise container (`Index`, `list`, `tuple`, `ndarray`), or
anything else.  Parsed timestamps are abstract (an integer identifier);
only their ordinal image matters here. -/
inductive PyVal where
  | dtval (d : ℤ)
  | timeval (t : ℤ)
  | numval (q : ℚ)
  | strval (s : String)
  | seqval (xs : List PyVal)
  | otherval

/-- The external services `DatetimeConverter.convert` calls.  Modelled
from the spec: `to_datetime` is the boundary parser ("parse(string) ->
timestamp, fails (signals) when the string is not a recognizable
date/time"; `pandas.tseries.tools` is not under `src/`), returning
`none` when the `try:` body would raise; `dt_to_float_ordinal` and
`date2num` are the fractional-day ordinal conversions. -/
structure DtExtern where
  to_datetime : PyVal → Option ℤ
  dt_to_float_ordinal : ℤ → ℚ
  date2num : ℤ → ℚ

/-- `try_parse` inside `DatetimeConverter.convert`: best-effort parse
then ordinal conversion, returning the value unchanged when anything
raises (`except Exception: return values`). -/
def try_parse (e : DtExtern) (v : PyVal) : PyVal :=
  match e.to_datetime v with
  | some d => .numval (e.dt_to_float_ordinal d)
  | none => v

/-- `DatetimeConverter.convert(values, unit, axis)`, case by case in
source order; containers map `try_parse` element-wise. -/
def DatetimeConverter_convert (e : DtExtern) (values : PyVal) : PyVal :=
  match values with
  | .dtval d => .numval (e.dt_to_float_ordinal d)
  | .timeval t => .numval (e.date2num t)
  | .numval q => .numval q
  | .strval s => try_parse e (.strval s)
  | .seqval xs => .seqval (xs.map (try_parse e))
  | .otherval => .otherval

theorem pyInt_mono {a b : ℚ} (h : a ≤ b) : pyInt a ≤ pyInt b := by
  unfold pyInt
  split <;> split
  · exact Int.floor_le_floor h
  · rename_i ha hb; exact absurd (le_trans ha h) hb
  · rename_i ha hb
    calc ⌈a⌉ ≤ 0 := Int.ceil_le.mpr (by exact_mod_cast le_of_not_le ha)
    _ ≤ ⌊b⌋ := Int.floor_nonneg.mpr hb
  · exact Int.ceil_le_ceil h

theorem wrB_preserve_true (m : ℕ → Bool) (f : ℕ → Bool) (i : ℕ)
    (h : f i = true) : wrB m true f i = true := by
  unfold wrB; split <;> simp [h]

theorem mkInfo_map_val (s : ℕ) (v : ℕ → ℤ)
    (F : (ℕ → Bool) × (ℕ → Bool) × (ℕ → String)) :
    (mkInfo s v F).map Tick.val = (List.range s).map v := by
  rw [mkInfo, List.map_map]; rfl

theorem mkInfo_head (s : ℕ) (hs : 0 < s) (v : ℕ → ℤ)
    (F : (ℕ → Bool) × (ℕ → Bool) × (ℕ → String)) :
    (mkInfo s v F).head? = some ⟨v 0, F.1 0, F.2.1 0, F.2.2 0⟩ := by
  obtain ⟨m, rfl⟩ : ∃ m, s = m + 1 :=
    ⟨s - 1, (Nat.succ_pred_eq_of_pos hs).symm⟩
  rw [mkInfo, List.range_succ_eq_map]
  simp

theorem mkInfo_getLast (s : ℕ) (hs : 0 < s) (v : ℕ → ℤ)
    (F : (ℕ → Bool) × (ℕ → Bool) × (ℕ → String)) :
    (mkInfo s v F).getLast? =
      some ⟨v (s - 1), F.1 (s - 1), F.2.1 (s - 1), F.2.2 (s - 1)⟩ := by
  obtain ⟨m, rfl⟩ : ∃ m, s = m + 1 :=
    ⟨s - 1, (Nat.succ_pred_eq_of_pos hs).symm⟩
  rw [mkInfo, List.range_succ]
  simp

theorem secondFields_maj_true (cal : Calendar) (v0 : ℤ) (ds : ℕ → Bool)
    (li : ℤ) (majI minI : ℕ → Bool) (fmtI : ℕ → String) (i : ℕ)
    (h : majI i = true) :
    (secondFields cal v0 ds li majI minI fmtI).1 i = true := by
  unfold secondFields
  exact wrB_preserve_true _ _ _ h

theorem minuteFields_maj_true (cal : Calendar) (v0 : ℤ) (ds : ℕ → Bool)
    (li : ℤ) (majI minI : ℕ → Bool) (fmtI : ℕ → String) (i : ℕ)
    (h : majI i = true) :
    (minuteFields cal v0 ds li majI minI fmtI).1 i = true := by
  unfold minuteFields
  exact wrB_preserve_true _ _ _ h

theorem hourFields_maj_true (cal : Calendar) (v0 : ℤ) (vo : ℚ)
    (ds : ℕ → Bool) (dsL ysL : List ℕ) (li : ℤ) (fy : Bool)
    (majI minI : ℕ → Bool) (fmtI : ℕ → String) (i : ℕ)
    (h : majI i = true) :
    (hourFields cal v0 vo ds dsL ysL li fy majI minI fmtI).1 i = true := by
  unfold hourFields
  exact wrB_preserve_true _ _ _ h

/-- Whatever branch `_daily_finder` takes, the `maj` column only ever
receives masked writes of `True` on top of the initial
`info['maj'][[0, -1]] = True`, so any initially-major index stays major. -/
theorem dailyFields_maj_true (cal : Calendar) (freq : DailyFreq)
    (vmin vmax : ℚ) (i : ℕ)
    (hi : i = 0 ∨ i + 1 = (pyInt vmax - pyInt vmin + 1).toNat) :
    (dailyFields cal freq vmin vmax).1 i = true := by
  have hinit :
      decide (i = 0 ∨ i + 1 = (pyInt vmax - pyInt vmin + 1).toNat) = true :=
    decide_eq_true hi
  unfold dailyFields
  dsimp only
  cases dailyBranch (dailyParams freq).1 (dailyParams freq).2.1
      (dailyParams freq).2.2 (pyInt vmax - pyInt vmin + 1) <;>
    dsimp only <;>
    first
    | exact secondFields_maj_true _ _ _ _ _ _ _ _ hinit
    | exact minuteFields_maj_true _ _ _ _ _ _ _ _ hinit
    | exact hourFields_maj_true _ _ _ _ _ _ _ _ _ _ _ _ hinit
    | exact wrB_preserve_true _ _ _ hinit

/-- C2: for every supported frequency and every `vmin ≤ vmax`, the daily
finder's output has the major flag set at the first and last position. -/
theorem daily_finder_first_last_major (cal : Calendar) (freq : DailyFreq)
    (vmin vmax : ℚ) (h : vmin ≤ vmax) :
    (daily_finder cal freq vmin vmax).head?.map Tick.maj = some true ∧
    (daily_finder cal freq vmin vmax).getLast?.map Tick.maj = some true := by
  have hm : pyInt vmin ≤ pyInt vmax := pyInt_mono h
  have hs : 0 < (pyInt vmax - pyInt vmin + 1).toNat := by omega
  constructor
  · rw [daily_finder, mkInfo_head _ hs]
    simpa using dailyFields_maj_true cal freq vmin vmax 0 (Or.inl rfl)
  · rw [daily_finder, mkInfo_getLast _ hs]
    simpa using
      dailyFields_maj_true cal freq vmin vmax
        ((pyInt vmax - pyInt vmin + 1).toNat - 1) (Or.inr (by omega))


/-- C2 witness at `freq = day`, `vmin = 0`, `vmax = 5`. -/
theorem daily_finder_first_last_major_witness :
    (0 : ℚ) ≤ 5 ∧
      ((daily_finder calTriv .FR_DAY 0 5).head?.map Tick.maj = some true ∧
       (daily_finder calTriv .FR_DAY 0 5).getLast?.map Tick.maj = some true) :=
  ⟨by norm_num, daily_finder_first_last_major calTriv .FR_DAY 0 5 (by norm_num)⟩

/-- C1 (amended): for `vmin ≤ vmax` the daily, monthly and quarterly
finders cover exactly the consecutive ordinals
`[int(vmin), int(vmax)]` (`int` truncating toward zero, which is `floor`
on the nonnegative inputs the plot axis produces); the annual finder
instead covers `[int(vmin), int(vmax + 1)]`, one ordinal past
`floor(vmax)`. -/
theorem finder_val_ranges (cal : Calendar) (freq : DailyFreq)
    (vmin vmax : ℚ) (h : vmin ≤ vmax) :
    (daily_finder cal freq vmin vmax).map Tick.val =
      intRange (pyInt vmin) (pyInt vmax) ∧
    (monthly_finder vmin vmax).map Tick.val =
      intRange (pyInt vmin) (pyInt vmax) ∧
    (quarterly_finder vmin vmax).map Tick.val =
      intRange (pyInt vmin) (pyInt vmax) ∧
    (annual_finder vmin vmax).map Tick.val =
      intRange (pyInt vmin) (pyInt (vmax + 1)) := by
  refine ⟨?_, ?_, ?_, ?_⟩
  · unfold daily_finder intRange; exact mkInfo_map_val _ _ _
  · unfold monthly_finder intRange; exact mkInfo_map_val _ _ _
  · unfold quarterly_finder intRange; exact mkInfo_map_val _ _ _
  · unfold annual_finder intRange; exact mkInfo_map_val _ _ _

/-- C1 witness at `vmin = 1/2`, `vmax = 7/2`. -/
theorem finder_val_ranges_witness :
    (1 / 2 : ℚ) ≤ 7 / 2 ∧
      ((daily_finder calTriv .FR_DAY (1 / 2) (7 / 2)).map Tick.val =
          intRange (pyInt (1 / 2)) (pyInt (7 / 2)) ∧
        (monthly_finder (1 / 2) (7 / 2)).map Tick.val =
          intRange (pyInt (1 / 2)) (pyInt (7 / 2)) ∧
        (quarterly_finder (1 / 2) (7 / 2)).map Tick.val =
          intRange (pyInt (1 / 2)) (pyInt (7 / 2)) ∧
        (annual_finder (1 / 2) (7 / 2)).map Tick.val =
          intRange (pyInt (1 / 2)) (pyInt (7 / 2 + 1))) :=
  ⟨by norm_num, finder_val_ranges calTriv .FR_DAY (1 / 2) (7 / 2) (by norm_num)⟩

/-- C1 counterexample: at `vmin = vmax = 0` the annual finder emits the
two ordinals `[0, 1]`, not the claimed single-ordinal range
`[floor(0), floor(0)] = [0]` — `_annual_finder` rebinds
`vmax = int(vmax + 1)` before building the range. -/
theorem annual_finder_val_cex :
    (annual_finder 0 0).map Tick.val = [0, 1] ∧
      (annual_finder 0 0).map Tick.val ≠ intRange (pyInt 0) (pyInt 0) := by
  have e0 : pyInt (0 : ℚ) = 0 := by norm_num [pyInt]
  have e1 : pyInt ((0 : ℚ) + 1) = 1 := by norm_num [pyInt]
  have h1 : (annual_finder 0 0).map Tick.val = [0, 1] := by
    unfold annual_finder
    rw [mkInfo_map_val, e1, e0]
    decide
  refine ⟨h1, ?_⟩
  rw [h1, e0]
  decide

/-- With a span of exactly 30 month-ordinals, `_monthly_finder` selects
the `span <= 2.5 * periodsperyear` band (`30 <= 30`), whose column
writes are: majors at year starts, the suspect boolean write then `%b`
at quarter starts, `%b\n%Y` at year starts, minors everywhere. -/
theorem monthlyFields_band2 (vmin vmax : ℚ)
    (h : pyInt vmax - pyInt vmin + 1 = 30) :
    monthlyFields vmin vmax =
      (wrB (fun i => decide ((pyInt vmin + (i : ℤ)) % 12 = 0)) true
          (fun _ => false),
        fun _ => true,
        wrS (fun i => decide ((pyInt vmin + (i : ℤ)) % 12 = 0)) "%b\n%Y"
          (wrS (fun i => decide ((pyInt vmin + (i : ℤ)) % 3 = 0)) "%b"
            (wrS (fun i => decide ((pyInt vmin + (i : ℤ)) % 3 = 0)) "True"
              (fun _ => "")))) := by
  unfold monthlyFields
  dsimp only
  rw [h]
  norm_num

/-- C5 (amended): a 30-month span falls in the
`span <= 2.5 * periodsperyear` band, where major ticks are exactly the
year-start positions (ordinal divisible by 12) with format `%b\n%Y`,
every position is a minor tick, and the quarter-start positions
(ordinal divisible by 3 — January, April, July and October) get format
`%b`; all other positions are unlabeled. -/
theorem monthly_finder_span30 (vmin vmax : ℚ)
    (h : pyInt vmax - pyInt vmin + 1 = 30) :
    monthly_finder vmin vmax =
      (List.range 30).map fun (i : ℕ) =>
        ⟨pyInt vmin + (i : ℤ),
          decide ((pyInt vmin + (i : ℤ)) % 12 = 0),
          true,
          if (pyInt vmin + (i : ℤ)) % 12 = 0 then "%b\n%Y"
          else if (pyInt vmin + (i : ℤ)) % 3 = 0 then "%b" else ""⟩ := by
  unfold monthly_finder mkInfo
  rw [monthlyFields_band2 vmin vmax h, h]
  norm_num
  refine List.map_congr_left fun i hi => ?_
  by_cases h12 : (pyInt vmin + (i : ℤ)) % 12 = 0 <;>
    by_cases h3 : (pyInt vmin + (i : ℤ)) % 3 = 0 <;>
    simp [wrB, wrS, h12, h3] <;>
    split_ifs <;> rfl

/-- C5 witness at `vmin = 0`, `vmax = 29`. -/
theorem monthly_finder_span30_witness :
    pyInt (29 : ℚ) - pyInt (0 : ℚ) + 1 = 30 ∧
      monthly_finder 0 29 =
        (List.range 30).map fun (i : ℕ) =>
          ⟨pyInt (0 : ℚ) + (i : ℤ),
            decide ((pyInt (0 : ℚ) + (i : ℤ)) % 12 = 0),
            true,
            if (pyInt (0 : ℚ) + (i : ℤ)) % 12 = 0 then "%b\n%Y"
            else if (pyInt (0 : ℚ) + (i : ℤ)) % 3 = 0 then "%b" else ""⟩ :=
  ⟨by decide, monthly_finder_span30 0 29 (by decide)⟩

/-- C5 counterexample: with `vmin = 0`, `vmax = 29` (span 30), position
3 is April — neither a year start (`3 % 12 ≠ 0`) nor the claimed
January/July special case (`3 % 12 ∉ {0, 6}`) — yet its format string is
`%b`, not empty: span 30 does not land in the claimed
`span <= 4 * periodsperyear` band, but in the quarterly one. -/
theorem monthly_finder_span30_cex :
    ((monthly_finder 0 29).map Tick.fmt).get? 3 = some "%b" ∧
      ¬((3 : ℤ) % 12 = 0 ∨ (3 : ℤ) % 12 = 6) := by
  have hb := monthlyFields_band2 0 29 (by decide)
  constructor
  · unfold monthly_finder
    rw [hb]
    decide
  · decide


/-- C6: calling the dynamic locator twice while the view interval is
unchanged runs the finder at most once in total — never on the second
call, whose cached TickInfo is reused — and both calls return the same
position list. -/
theorem locator_call_idempotent (finder : ℚ → ℚ → List Tick)
    (isminor : Bool) (st : PlotState) (vi : ℚ × ℚ) :
    (locator_call finder isminor
        (locator_call finder isminor st vi).2.1 vi).1 =
      (locator_call finder isminor st vi).1 ∧
    (locator_call finder isminor
        (locator_call finder isminor st vi).2.1 vi).2.2 = 0 ∧
    (locator_call finder isminor st vi).2.2 +
        (locator_call finder isminor
          (locator_call finder isminor st vi).2.1 vi).2.2 ≤ 1 := by
  unfold locator_call get_default_locs
  by_cases hv : some vi ≠ st.view_interval <;>
    rcases hdai : st.date_axis_info with _ | info <;>
      simp [hv, hdai]

theorem dictLookup_after_filter (d : List (ℤ × String)) (x : ℤ) :
    dictLookup (d.filter fun q => q.1 != x) x = none := by
  unfold dictLookup
  have hf : (d.filter fun q => q.1 != x).find? (fun q => q.1 == x) = none := by
    rw [List.find?_eq_none]
    intro p hp
    have hne := (List.mem_filter.mp hp).2
    simp only [bne_iff_ne, ne_eq] at hne
    simp [hne]
  rw [hf]
  rfl

/-- C7: after `set_locs` rebuilds the label map, a position present in
the map renders its label on the first `__call__` and the empty string
on every subsequent `__call__` at the same position with no intervening
rebuild (the entry is consumed by `pop`; the empty pattern renders to
the empty string). -/
theorem formatter_call_consumes (strftime : ℤ → String → String)
    (hs : ∀ p, strftime p "" = "")
    (finder : ℚ → ℚ → List Tick) (isminor : Bool) (st : FmtState)
    (vi : ℚ × ℚ) (x : ℤ) (f : String) (d : List (ℤ × String))
    (hd : (formatter_set_locs finder isminor st vi).formatdict = some d)
    (hx : dictLookup d x = some f) :
    (formatter_call strftime (formatter_set_locs finder isminor st vi) x).1 =
      strftime x f ∧
    (formatter_call strftime
        (formatter_call strftime
          (formatter_set_locs finder isminor st vi) x).2 x).1 = "" := by
  have hpop : dictPop d x = (f, d.filter fun q => q.1 != x) := by
    unfold dictPop
    rw [hx]
    rfl
  have h1 : formatter_call strftime (formatter_set_locs finder isminor st vi) x
      = (strftime x f,
          { formatter_set_locs finder isminor st vi with
            formatdict := some (d.filter fun q => q.1 != x) }) := by
    unfold formatter_call
    rw [hd]
    dsimp only
    rw [hpop]
  refine ⟨by rw [h1], ?_⟩
  rw [h1]
  unfold formatter_call
  dsimp only
  unfold dictPop
  rw [dictLookup_after_filter]
  exact hs x

/-- C7 witness on a one-entry map. -/
theorem formatter_call_consumes_witness :
    (formatter_call (fun _ s => s)
        (formatter_set_locs (fun _ _ => [⟨0, true, false, "L"⟩]) false
          ⟨none, ⟨none, none⟩⟩ (0, 0)) 0).1 = "L" ∧
    (formatter_call (fun _ s => s)
        (formatter_call (fun _ s => s)
          (formatter_set_locs (fun _ _ => [⟨0, true, false, "L"⟩]) false
            ⟨none, ⟨none, none⟩⟩ (0, 0)) 0).2 0).1 = "" :=
  formatter_call_consumes (fun _ s => s) (fun _ => rfl)
    (fun _ _ => [⟨0, true, false, "L"⟩]) false ⟨none, ⟨none, none⟩⟩ (0, 0) 0
    "L" [(0, "L")] (by decide) (by decide)

/-- C10: before any `set_locs` has populated the label map
(`formatdict` still absent), `__call__` returns the empty string for
every position, for every rendering service and cache state. -/
theorem formatter_call_unset (strftime : ℤ → String → String)
    (pst : PlotState) (x : ℤ) :
    (formatter_call strftime ⟨none, pst⟩ x).1 = "" := rfl

/-- C8: a string whose parse attempt fails is returned unchanged (the
`except` path), both as a scalar and element-wise inside a container;
`convert` is a total function, so no exception escapes. -/
theorem convert_unparseable_string (e : DtExtern) (s : String)
    (h : e.to_datetime (.strval s) = none) :
    DatetimeConverter_convert e (.strval s) = .strval s ∧
    ∀ xs : List PyVal, ∃ ys : List PyVal,
      DatetimeConverter_convert e (.seqval xs) = .seqval ys ∧
      ∀ i : ℕ, xs[i]? = some (.strval s) → ys[i]? = some (.strval s) := by
  have htp : try_parse e (.strval s) = .strval s := by
    unfold try_parse
    rw [h]
  refine ⟨htp, fun xs => ⟨xs.map (try_parse e), rfl, fun i hi => ?_⟩⟩
  rw [List.getElem?_map, hi]
  simp [htp]

/-- C8 witness: a parser that rejects everything leaves the string
untouched. -/
theorem convert_unparseable_string_witness :
    DatetimeConverter_convert ⟨fun _ => none, fun _ => 0, fun _ => 0⟩
        (.strval "not a date") = .strval "not a date" :=
  (convert_unparseable_string ⟨fun _ => none, fun _ => 0, fun _ => 0⟩
    "not a date" rfl).1

/-- C3 (amended): `has_level_label` returns `False` exactly when the
boundary-index array is empty, or it holds the single index 0 while
`vmin` is non-integral; `True` in every other case. -/
theorem has_level_label_characterization (flags : List ℕ) (vmin : ℚ) :
    has_level_label flags vmin = false ↔
      (flags = [] ∨ (flags = [0] ∧ pyMod1 vmin > 0)) := by
  unfold has_level_label
  match flags with
  | [] => simp
  | [a] =>
    constructor
    · intro h
      split at h
      · rename_i hc
        rcases hc with hc | hc
        · simp at hc
        · right
          refine ⟨?_, hc.2.2⟩
          simp only [List.headD] at hc
          simp [hc.2.1]
      · simp at h
    · intro h
      rcases h with h | h
      · simp at h
      · rw [if_pos]
        right
        refine ⟨by simp, ?_, h.2⟩
        have : a = 0 := by simpa using congrArg (List.headD · 0) h.1
        simp [this]
  | a :: b :: rest =>
    constructor
    · intro h
      split at h
      · rename_i hc
        rcases hc with hc | hc
        · simp at hc
        · simp at hc
      · simp at h
    · intro h
      rcases h with h | h
      · simp at h
      · exact absurd h.1 (by simp)

/-- C3 counterexample: at `flags = []`, `vmin = 0` the code returns
`False`, but the claimed iff ("False exactly when there is one boundary
index, at 0, and `vmin` is non-integral") demands `True` for the empty
array. -/
theorem has_level_label_claim_cex :
    ¬(has_level_label [] (0 : ℚ) = false ↔
        (([] : List ℕ) = [0] ∧ pyMod1 (0 : ℚ) > 0)) := by
  decide

/-- C4: the annual spacing table, band by band, with the scaled tail
`(20*factor, 100*factor)` for `factor = floor(n/1000) + 1`, and the
concrete point `n = 5000 ↦ (120, 600)`. -/
theorem annual_spacing_table (n : ℚ) (h : 0 ≤ n) :
    (n < 11 → get_default_annual_spacing n = (1, 1)) ∧
    (11 ≤ n → n < 20 → get_default_annual_spacing n = (1, 2)) ∧
    (20 ≤ n → n < 50 → get_default_annual_spacing n = (1, 5)) ∧
    (50 ≤ n → n < 100 → get_default_annual_spacing n = (5, 10)) ∧
    (100 ≤ n → n < 200 → get_default_annual_spacing n = (5, 25)) ∧
    (200 ≤ n → n < 600 → get_default_annual_spacing n = (10, 50)) ∧
    (600 ≤ n →
      get_default_annual_spacing n =
        ((⌊n / 1000⌋ + 1) * 20, (⌊n / 1000⌋ + 1) * 100)) ∧
    get_default_annual_spacing (5000 : ℚ) = (120, 600) := by
  refine ⟨?_, ?_, ?_, ?_, ?_, ?_, ?_, ?_⟩
  · intro h1; unfold get_default_annual_spacing; rw [if_pos h1]
  · intro h1 h2
    unfold get_default_annual_spacing
    rw [if_neg (by linarith), if_pos h2]
  · intro h1 h2
    unfold get_default_annual_spacing
    rw [if_neg (by linarith), if_neg (by linarith), if_pos h2]
  · intro h1 h2
    unfold get_default_annual_spacing
    rw [if_neg (by linarith), if_neg (by linarith), if_neg (by linarith),
      if_pos h2]
  · intro h1 h2
    unfold get_default_annual_spacing
    rw [if_neg (by linarith), if_neg (by linarith), if_neg (by linarith),
      if_neg (by linarith), if_pos h2]
  · intro h1 h2
    unfold get_default_annual_spacing
    rw [if_neg (by linarith), if_neg (by linarith), if_neg (by linarith),
      if_neg (by linarith), if_neg (by linarith), if_pos h2]
  · intro h1
    unfold get_default_annual_spacing
    rw [if_neg (by linarith), if_neg (by linarith), if_neg (by linarith),
      if_neg (by linarith), if_neg (by linarith), if_neg (by linarith)]
  · norm_num [get_default_annual_spacing]

/-- C4 witness at `n = 5000`. -/
theorem annual_spacing_table_witness :
    (0 : ℚ) ≤ 5000 ∧ get_default_annual_spacing (5000 : ℚ) = (120, 600) :=
  ⟨by norm_num, (annual_spacing_table 5000 (by norm_num)).2.2.2.2.2.2.2⟩

end PandasConverter
